import Mathlib

/-!
Verification of the ClickHouse chatbot front-end (`src/app.py`, `src/utils.py`)
against its natural-language specification.

The Python program is shallowly embedded:
* Python values that can flow out of `db_chain.run` are the inductive `PyVal`
  (None, bool, int, str, list, tuple, dict with string keys).
* `pandas.DataFrame` construction, as used by `format_and_display_response`,
  is modelled by `DataFrame` together with the constructors `dfOfTuples`,
  `dfOfDicts` and the literal column dictionaries the code builds.
* Streamlit session state (`st.session_state`) is the record `SessionState`
  holding `history`, the optional `export_data` frame, and the error-log file
  contents as a list of appended entries.
* One Streamlit rerun triggered by the Send button is `submitStep`; the
  executor `db_chain.run` is passed in as a function returning
  `Except String PyVal` (`error e` models a raised exception with message
  `e`).  The Clear Chat button is `clearStep`.
* `read_properties_file` of `src/utils.py` is embedded over an explicit
  `fileExists` flag and an optional DEFAULT section given as an association
  list, mirroring the checks the Python function performs in order.
-/

namespace ClickhouseChatbot

/-- Python values reaching the display layer. -/
inductive PyVal where
  | pynone
  | pybool (b : Bool)
  | pyint (n : Int)
  | pystr (s : String)
  | pylist (elems : List PyVal)
  | pytuple (elems : List PyVal)
  | pydict (entries : List (String × PyVal))

/-- Python truthiness (`bool(x)`) for the embedded values: `if not response:`. -/
def truthy : PyVal → Bool
  | .pynone => false
  | .pybool b => b
  | .pyint n => n != 0
  | .pystr s => s ≠ ""
  | .pylist xs => ¬ xs.isEmpty
  | .pytuple xs => ¬ xs.isEmpty
  | .pydict kvs => ¬ kvs.isEmpty

/-- `isinstance(x, (list, tuple, dict))` in `main`. -/
def isListTupleDict : PyVal → Bool
  | .pylist _ => true
  | .pytuple _ => true
  | .pydict _ => true
  | _ => false

/-- `isinstance(x, tuple)`. -/
def isTupleVal : PyVal → Bool
  | .pytuple _ => true
  | _ => false

/-- `isinstance(x, dict)`. -/
def isDictVal : PyVal → Bool
  | .pydict _ => true
  | _ => false

/-- The entries of a dict value (other values contribute none). -/
def dictEntries : PyVal → List (String × PyVal)
  | .pydict kvs => kvs
  | _ => []

/-- The keys of a dict value, in insertion order. -/
def dictKeys (v : PyVal) : List String :=
  (dictEntries v).map Prod.fst

/-- First-binding lookup in a dict's entries; a missing key becomes `pynone`
(modelling the NaN pandas fills in). -/
def lookupEntry (kvs : List (String × PyVal)) (k : String) : PyVal :=
  match kvs.find? (fun p => p.1 == k) with
  | some p => p.2
  | none => PyVal.pynone

/-- The tabular result of normalisation: column labels and rows of cells. -/
structure DataFrame where
  columns : List String
  rows : List (List PyVal)

/-- Append a key if it is not already a column label. -/
def insertNewCol (acc : List String) (k : String) : List String :=
  if k ∈ acc then acc else acc ++ [k]

/-- Column labels pandas infers for a list of dicts: the union of the keys in
order of first appearance. -/
def unionCols (xs : List PyVal) : List String :=
  xs.foldl (fun acc v => (dictKeys v).foldl insertNewCol acc) []

/-- `pd.DataFrame(response)` for a list of records whose first element is a
dict: one row per record, columns the union of keys, missing cells NaN. -/
def dfOfDicts (xs : List PyVal) : DataFrame :=
  let cols := unionCols xs
  { columns := cols
    rows := xs.map (fun v => cols.map (fun k => lookupEntry (dictEntries v) k)) }

/-- The cells a record contributes when pandas builds rows from tuples. -/
def tupleCells : PyVal → List PyVal
  | .pytuple es => es
  | v => [v]

/-- `pd.DataFrame(response)` for a list whose first element is a tuple:
positional integer column labels, rows padded with NaN. -/
def dfOfTuples (xs : List PyVal) : DataFrame :=
  let n := xs.foldl (fun m v => max m (tupleCells v).length) 0
  { columns := (List.range n).map (fun i => toString i)
    rows := xs.map (fun v => (List.range n).map
      (fun i => ((tupleCells v).get? i).getD PyVal.pynone)) }

/-- `format_and_display_response` of `src/app.py`: `none` models the early
return with the "No data available." warning (no table displayed and
`st.session_state['export_data']` left untouched); `some df` models
displaying `df` and storing it as the export buffer. -/
def format_and_display_response (response : PyVal) : Option DataFrame :=
  if truthy response then
    some (match response with
      | .pylist xs =>
        match xs.head? with
        | some (.pytuple _) => dfOfTuples xs
        | some (.pydict _) => dfOfDicts xs
        | _ => { columns := ["Response"], rows := xs.map (fun v => [v]) }
      | .pydict kvs => dfOfDicts [.pydict kvs]
      | v => { columns := ["Response"], rows := [[v]] })
  else
    none

/-- Characters `str.strip()` removes (ASCII whitespace as Python treats it). -/
def pyIsSpace (c : Char) : Bool :=
  c = ' ' || c = '\t' || c = '\n' || c = '\r' || c.toNat = 11 || c.toNat = 12

/-- `s.strip()`: drop leading and trailing whitespace. -/
def pyStrip (s : String) : String :=
  String.mk (((s.toList.dropWhile pyIsSpace).reverse.dropWhile pyIsSpace).reverse)

/-- `str(x)` for the scalar values that can reach the f-string
`f"**Bot:** {response or 'No data found'}"`.  In `main` this branch is taken
only when `response` is not a truthy list/tuple/dict, and falsy values are
replaced by the default text before `str` applies, so only truthy scalars are
ever rendered; collection reprs are modelled coarsely. -/
def pyStr : PyVal → String
  | .pynone => "None"
  | .pybool b => if b then "True" else "False"
  | .pyint n => toString n
  | .pystr s => s
  | .pylist _ => "[...]"
  | .pytuple _ => "(...)"
  | .pydict _ => "\x7b...\x7d"

/-- `traceback.format_exc()`, modelled as a function of the raised message:
the diagnostic block written to the error log, containing the error text. -/
def formatExc (e : String) : String :=
  "Traceback (most recent call last):\n" ++ e

/-- Streamlit per-session state of `main`: the chat history
(`st.session_state["history"]`), the export buffer
(`st.session_state['export_data']`, absent until a table is first displayed)
and the contents of `error_log.txt` as the list of appended blocks. -/
structure SessionState where
  history : List String
  export_data : Option DataFrame
  error_log : List String

/-- The state on first load: empty history, no export buffer, empty log. -/
def initialState : SessionState :=
  { history := [], export_data := none, error_log := [] }

/-- One Send-button rerun of `main` (lines 99-124 of `src/app.py`).
`runf` is `db_chain.run`: `Except.ok` a returned value, `Except.error e` an
exception raised with message `e`.  Mirrors the source: the guard
`if submit_button and user_input.strip():`, then inside `try`, `run` is
called FIRST and only then is the user turn appended; on success the
truthy-collection test picks the table branch (which displays the frame and
overwrites the export buffer) or the plain-text branch; on exception the
except-block appends a Bot error turn and appends one block to the log. -/
def submitStep (runf : String → Except String PyVal)
    (s : SessionState) (user_input : String) : SessionState :=
  if pyStrip user_input = "" then s
  else
    match runf user_input with
    | .ok response =>
      let hist := s.history ++ ["**You:** " ++ user_input]
      if isListTupleDict response && truthy response then
        { history := hist ++ ["**Bot:** (See table below)"]
          export_data :=
            match format_and_display_response response with
            | some df => some df
            | none => s.export_data
          error_log := s.error_log }
      else
        { history := hist ++
            ["**Bot:** " ++ (if truthy response then pyStr response else "No data found")]
          export_data := s.export_data
          error_log := s.error_log }
    | .error e =>
      { history := s.history ++ ["**Bot:** ❌ Error: " ++ e]
        export_data := s.export_data
        error_log := s.error_log ++ ["\n" ++ formatExc e ++ "\n"] }

/-- The Clear Chat button (lines 127-129 of `src/app.py`):
`st.session_state["history"] = []` and nothing else. -/
def clearStep (s : SessionState) : SessionState :=
  { s with history := [] }

/-- The Bot turn `main` appends on a successful run, as a function of the
returned value (matches the branches of `submitStep`). -/
def botTurn (response : PyVal) : String :=
  if isListTupleDict response && truthy response then
    "**Bot:** (See table below)"
  else
    "**Bot:** " ++ (if truthy response then pyStr response else "No data found")

/-- Errors `read_properties_file` can raise, plus the uncaught `ValueError`
of `int(...)` on a non-integer `db_port` value. -/
inductive ConfigError where
  | missingFile (path : String)
  | missingSection
  | missingKeys (keys : List String)
  | valueError (text : String)
deriving DecidableEq

/-- The validated settings record returned by `read_properties_file`. -/
structure Settings where
  db_host : String
  db_port : Int
  db_user : String
  db_password : String
  db_name : String
  gemini_api_key : String
deriving DecidableEq

/-- `required_keys` of `src/utils.py` line 25, in source order. -/
def required_keys : List String :=
  ["db_host", "db_port", "db_user", "db_password", "db_name", "gemini_api_key"]

/-- `key in config["DEFAULT"]` for a section given as an association list. -/
def hasKey (sec : List (String × String)) (k : String) : Bool :=
  sec.any (fun p => p.1 == k)

/-- `config["DEFAULT"][key]` (first binding; "" for an absent key, which the
code never reads because it checks presence first). -/
def getVal (sec : List (String × String)) (k : String) : String :=
  (((sec.find? (fun p => p.1 == k)).map Prod.snd)).getD ""

/-- The value of a decimal digit string. -/
def digitsToNat (cs : List Char) : Nat :=
  cs.foldl (fun n c => n * 10 + (c.toNat - 48)) 0

/-- Python `int(s)`: strip whitespace, optional sign, decimal digits;
`none` models the `ValueError` raised otherwise. -/
def pyInt (s : String) : Option Int :=
  match (pyStrip s).toList with
  | [] => none
  | c :: rest =>
    let signDigits :=
      if c = '-' then (true, rest)
      else if c = '+' then (false, rest)
      else (false, c :: rest)
    if signDigits.2 ≠ [] && signDigits.2.all Char.isDigit then
      some (if signDigits.1 then -(digitsToNat signDigits.2 : Int)
            else (digitsToNat signDigits.2 : Int))
    else none

/-- `read_properties_file` of `src/utils.py`: existence check, DEFAULT
section check, presence check for all six required keys (collecting every
missing one), then the record is built with `db_port` passed through
`int(...)`. -/
def read_properties_file (fileExists : Bool)
    (defaultSec : Option (List (String × String))) : Except ConfigError Settings :=
  if !fileExists then .error (.missingFile "config.properties")
  else
    match defaultSec with
    | none => .error .missingSection
    | some sec =>
      let missing_keys := required_keys.filter (fun k => !hasKey sec k)
      if missing_keys.isEmpty then
        match pyInt (getVal sec "db_port") with
        | some p =>
          .ok { db_host := getVal sec "db_host"
                db_port := p
                db_user := getVal sec "db_user"
                db_password := getVal sec "db_password"
                db_name := getVal sec "db_name"
                gemini_api_key := getVal sec "gemini_api_key" }
        | none => .error (.valueError (getVal sec "db_port"))
      else
        .error (.missingKeys missing_keys)

/-! ## Properties of the response normaliser -/

/-- C9: `format_and_display_response` on `None` and on an empty list takes
the no-data early return (no table, never an exception), and it is total:
it yields no table exactly on falsy inputs and exactly one table on every
truthy input, with the scalar case as catch-all. -/
theorem normalize_empty_and_total :
    format_and_display_response PyVal.pynone = none
    ∧ format_and_display_response (PyVal.pylist []) = none
    ∧ ∀ v : PyVal, ((format_and_display_response v).isNone ↔ truthy v = false) := by
  refine ⟨rfl, rfl, fun v => ?_⟩
  unfold format_and_display_response
  cases h : truthy v <;> simp [h]

/-- C5 counterexample: a two-element list of plain strings falls into the
Response-column case but yields a TWO-row table, not a one-row table as the
claim states. -/
theorem scalar_list_one_row_counterexample :
    (format_and_display_response
        (PyVal.pylist [PyVal.pystr "a", PyVal.pystr "b"])).map
      (fun df => df.rows.length) = some 2
    ∧ some (2 : Nat) ≠ some 1 := by
  exact ⟨rfl, by decide⟩

/-- C5 amended: a non-empty list whose elements are neither tuples nor dicts
falls into the catch-all branch of the list case and yields a one-column
table with column name "Response" and ONE ROW PER ELEMENT of the list. -/
theorem scalar_list_response_column (x : PyVal) (xs : List PyVal)
    (h : ∀ v ∈ x :: xs, isTupleVal v = false ∧ isDictVal v = false) :
    format_and_display_response (PyVal.pylist (x :: xs)) =
      some { columns := ["Response"], rows := (x :: xs).map (fun v => [v]) }
    ∧ ((x :: xs).map (fun v => [v] : PyVal → List PyVal)).length = (x :: xs).length := by
  have hx := h x (List.mem_cons_self x xs)
  constructor
  · unfold format_and_display_response
    cases x <;> simp_all [truthy, isTupleVal, isDictVal]
  · simp

/-- Witness for C5 amended at the list `["a", "b"]`. -/
theorem scalar_list_response_column_witness :
    format_and_display_response (PyVal.pylist [PyVal.pystr "a", PyVal.pystr "b"]) =
      some { columns := ["Response"]
             rows := [[PyVal.pystr "a"], [PyVal.pystr "b"]] } := by
  have h := scalar_list_response_column (PyVal.pystr "a") [PyVal.pystr "b"]
    (by intro v hv; simp only [List.mem_cons, List.not_mem_nil, or_false] at hv
        rcases hv with rfl | rfl <;> exact ⟨rfl, rfl⟩)
  exact h.1

/-- Membership in `insertNewCol`: the accumulator plus the new key. -/
theorem mem_insertNewCol (acc : List String) (a k : String) :
    k ∈ insertNewCol acc a ↔ k ∈ acc ∨ k = a := by
  unfold insertNewCol
  by_cases h : a ∈ acc
  · simp only [if_pos h]
    constructor
    · exact Or.inl
    · rintro (hk | rfl)
      · exact hk
      · exact h
  · simp [if_neg h]

/-- Membership after folding a key list into the accumulator. -/
theorem mem_foldl_insertNewCol (ks : List String) (acc : List String) (k : String) :
    k ∈ ks.foldl insertNewCol acc ↔ k ∈ acc ∨ k ∈ ks := by
  induction ks generalizing acc with
  | nil => simp
  | cons a t ih =>
    simp only [List.foldl_cons, ih, mem_insertNewCol, List.mem_cons]
    tauto

/-- The column labels pandas infers for a record list are exactly the keys
appearing in some record. -/
theorem mem_unionCols (xs : List PyVal) (k : String) :
    k ∈ unionCols xs ↔ ∃ v ∈ xs, k ∈ dictKeys v := by
  suffices h : ∀ acc : List String,
      k ∈ xs.foldl (fun acc v => (dictKeys v).foldl insertNewCol acc) acc
        ↔ k ∈ acc ∨ ∃ v ∈ xs, k ∈ dictKeys v by
    simpa [unionCols] using h []
  induction xs with
  | nil => simp
  | cons a t ih =>
    intro acc
    simp only [List.foldl_cons, ih, mem_foldl_insertNewCol, List.exists_mem_cons_iff]
    tauto

/-- C8: a non-empty list of dicts all sharing the first record's key set
normalises to a table with one row per record and column set equal to the
first record's key set. -/
theorem uniform_dicts_table (kvs0 : List (String × PyVal)) (rest : List PyVal)
    (_hdicts : ∀ v ∈ rest, isDictVal v = true)
    (huniform : ∀ v ∈ rest, ∀ k : String,
      k ∈ dictKeys v ↔ k ∈ dictKeys (PyVal.pydict kvs0)) :
    format_and_display_response (PyVal.pylist (PyVal.pydict kvs0 :: rest)) =
        some (dfOfDicts (PyVal.pydict kvs0 :: rest))
    ∧ (dfOfDicts (PyVal.pydict kvs0 :: rest)).rows.length
        = (PyVal.pydict kvs0 :: rest).length
    ∧ ∀ k : String,
        (k ∈ (dfOfDicts (PyVal.pydict kvs0 :: rest)).columns
          ↔ k ∈ dictKeys (PyVal.pydict kvs0)) := by
  refine ⟨rfl, by simp [dfOfDicts], fun k => ?_⟩
  show k ∈ unionCols (PyVal.pydict kvs0 :: rest) ↔ k ∈ dictKeys (PyVal.pydict kvs0)
  rw [mem_unionCols]
  constructor
  · rintro ⟨v, hv, hk⟩
    rcases List.mem_cons.mp hv with rfl | hv
    · exact hk
    · exact (huniform v hv k).mp hk
  · intro hk
    exact ⟨PyVal.pydict kvs0, List.mem_cons_self _ _, hk⟩

/-- Witness for C8 at the list `[{"count": 42}, {"count": 7}]`. -/
theorem uniform_dicts_table_witness :
    format_and_display_response
        (PyVal.pylist [PyVal.pydict [("count", PyVal.pyint 42)],
          PyVal.pydict [("count", PyVal.pyint 7)]]) =
      some (dfOfDicts [PyVal.pydict [("count", PyVal.pyint 42)],
        PyVal.pydict [("count", PyVal.pyint 7)]])
    ∧ (dfOfDicts [PyVal.pydict [("count", PyVal.pyint 42)],
        PyVal.pydict [("count", PyVal.pyint 7)]]).rows.length = 2
    ∧ ("count" ∈ (dfOfDicts [PyVal.pydict [("count", PyVal.pyint 42)],
        PyVal.pydict [("count", PyVal.pyint 7)]]).columns
          ↔ "count" ∈ dictKeys (PyVal.pydict [("count", PyVal.pyint 42)])) := by
  have h := uniform_dicts_table [("count", PyVal.pyint 42)]
    [PyVal.pydict [("count", PyVal.pyint 7)]]
    (by intro v hv; simp only [List.mem_cons, List.not_mem_nil, or_false] at hv
        subst hv; rfl)
    (by intro v hv k; simp only [List.mem_cons, List.not_mem_nil, or_false] at hv
        subst hv; exact Iff.rfl)
  exact ⟨h.1, h.2.1, h.2.2 "count"⟩

/-! ## Properties of the config loader -/

/-- A DEFAULT section in which every required key is present but the value
of `db_host` is the empty string. -/
def secEmptyHost : List (String × String) :=
  [("db_host", ""), ("db_port", "9000"), ("db_user", "u"),
   ("db_password", "p"), ("db_name", "d"), ("gemini_api_key", "k")]

instance exceptDecEq {ε α : Type} [DecidableEq ε] [DecidableEq α] :
    DecidableEq (Except ε α) := fun x y =>
  match x, y with
  | .ok a, .ok b =>
    if h : a = b then isTrue (by rw [h])
    else isFalse (fun hc => h (Except.ok.inj hc))
  | .error a, .error b =>
    if h : a = b then isTrue (by rw [h])
    else isFalse (fun hc => h (Except.error.inj hc))
  | .ok _, .error _ => isFalse (fun hc => Except.noConfusion hc)
  | .error _, .ok _ => isFalse (fun hc => Except.noConfusion hc)

/-- Unfolding of the loader on an existing file with a DEFAULT section. -/
theorem read_properties_file_some (sec : List (String × String)) :
    read_properties_file true (some sec) =
      (if (required_keys.filter (fun k => !hasKey sec k)).isEmpty then
        match pyInt (getVal sec "db_port") with
        | some p =>
          Except.ok { db_host := getVal sec "db_host"
                      db_port := p
                      db_user := getVal sec "db_user"
                      db_password := getVal sec "db_password"
                      db_name := getVal sec "db_name"
                      gemini_api_key := getVal sec "gemini_api_key" }
        | none => Except.error (ConfigError.valueError (getVal sec "db_port"))
      else
        Except.error (ConfigError.missingKeys
          (required_keys.filter (fun k => !hasKey sec k)))) := rfl

/-- C3 counterexample: with `db_host` bound to the empty string the loader
succeeds and returns a settings record whose `db_host` field is empty, so
loading does NOT fail on an empty field and the returned record violates
the all-non-empty invariant. -/
theorem config_accepts_empty_value_counterexample :
    read_properties_file true (some secEmptyHost) =
      Except.ok { db_host := "", db_port := 9000, db_user := "u",
                  db_password := "p", db_name := "d", gemini_api_key := "k" }
    ∧ ("" : String) ≠ "u" := by
  exact ⟨by decide, by decide⟩

/-- C3 amended: the loader checks only PRESENCE of the six required keys
(and that `db_port` parses as an integer): whenever it returns a settings
record, all six keys were present and each string field is the raw value
from the file, which may be empty; emptiness is never validated. -/
theorem config_presence_only (sec : List (String × String)) (s : Settings)
    (h : read_properties_file true (some sec) = Except.ok s) :
    (∀ k ∈ required_keys, hasKey sec k = true)
    ∧ s.db_host = getVal sec "db_host"
    ∧ pyInt (getVal sec "db_port") = some s.db_port
    ∧ s.db_user = getVal sec "db_user"
    ∧ s.db_password = getVal sec "db_password"
    ∧ s.db_name = getVal sec "db_name"
    ∧ s.gemini_api_key = getVal sec "gemini_api_key" := by
  rw [read_properties_file_some] at h
  by_cases hm : (required_keys.filter (fun k => !hasKey sec k)).isEmpty
  · rw [if_pos hm] at h
    have hpres : ∀ k ∈ required_keys, hasKey sec k = true := by
      intro k hk
      by_contra hnk
      have hnk2 : hasKey sec k = false := Bool.eq_false_iff.mpr hnk
      have hmem : k ∈ required_keys.filter (fun k => !hasKey sec k) :=
        List.mem_filter.mpr ⟨hk, by rw [hnk2]; rfl⟩
      rw [List.isEmpty_iff] at hm
      rw [hm] at hmem
      exact absurd hmem (List.not_mem_nil k)
    cases hp : pyInt (getVal sec "db_port") with
    | none => rw [hp] at h; cases h
    | some p =>
      rw [hp] at h
      cases h
      exact ⟨hpres, rfl, rfl, rfl, rfl, rfl, rfl⟩
  · rw [if_neg hm] at h
    cases h

/-- Witness for C3 amended at the section with the empty `db_host`. -/
theorem config_presence_only_witness :
    pyInt (getVal secEmptyHost "db_port") = some (9000 : Int)
    ∧ hasKey secEmptyHost "db_host" = true := by
  have h := config_presence_only secEmptyHost
    { db_host := "", db_port := 9000, db_user := "u", db_password := "p",
      db_name := "d", gemini_api_key := "k" } (by decide)
  exact ⟨h.2.2.1, h.1 "db_host" (by decide)⟩

/-- C6: when at least one required key is absent, the loader fails with an
error listing exactly the absent required keys — every missing key appears
in the reported list, not only the first one found. -/
theorem missing_keys_all_reported (sec : List (String × String))
    (h : (required_keys.filter (fun k => !hasKey sec k)).isEmpty = false) :
    read_properties_file true (some sec) =
        Except.error (ConfigError.missingKeys
          (required_keys.filter (fun k => !hasKey sec k)))
    ∧ (∀ k ∈ required_keys, hasKey sec k = false →
        k ∈ required_keys.filter (fun k => !hasKey sec k))
    ∧ (∀ k ∈ required_keys.filter (fun k => !hasKey sec k),
        k ∈ required_keys ∧ hasKey sec k = false) := by
  refine ⟨?_, ?_, ?_⟩
  · rw [read_properties_file_some]
    rw [if_neg (Bool.eq_false_iff.mp h)]
  · intro k hk hnk
    exact List.mem_filter.mpr ⟨hk, by rw [hnk]; rfl⟩
  · intro k hk
    have hk2 := List.mem_filter.mp hk
    refine ⟨hk2.1, ?_⟩
    have h2 := hk2.2
    cases hb : hasKey sec k with
    | false => rfl
    | true => rw [hb] at h2; cases h2

/-- A DEFAULT section missing both `db_port` and `db_password`. -/
def secMissingTwo : List (String × String) :=
  [("db_host", "h"), ("db_user", "u"), ("db_name", "d"), ("gemini_api_key", "k")]

/-- Witness for C6: with `db_port` and `db_password` absent, the error
lists both missing keys. -/
theorem missing_keys_all_reported_witness :
    read_properties_file true (some secMissingTwo) =
      Except.error (ConfigError.missingKeys ["db_port", "db_password"]) := by
  have h := missing_keys_all_reported secMissingTwo (by decide)
  exact h.1.trans (by decide)

/-! ## Properties of the session loop -/

/-- A session state in which a table has already been exported. -/
def stateWithExport : SessionState :=
  { history := ["**You:** hi", "**Bot:** (See table below)"]
    export_data := some { columns := ["Response"], rows := [[PyVal.pystr "ok"]] }
    error_log := [] }

/-- C1 counterexample: clearing a session that holds an export buffer
empties the history but the ExportBuffer is STILL PRESENT — the clear
action does not drop `st.session_state['export_data']`. -/
theorem clear_keeps_export_counterexample :
    (clearStep stateWithExport).history.length = 0
    ∧ (clearStep stateWithExport).export_data ≠ none := by
  refine ⟨rfl, ?_⟩
  simp [clearStep, stateWithExport]

/-- C1 amended: the explicit clear action resets History to length 0 and
leaves the ExportBuffer (and the error log) exactly as they were; only the
history is reset. -/
theorem clear_resets_history_only (s : SessionState) :
    (clearStep s).history = []
    ∧ (clearStep s).history.length = 0
    ∧ (clearStep s).export_data = s.export_data
    ∧ (clearStep s).error_log = s.error_log :=
  ⟨rfl, rfl, rfl, rfl⟩

/-- C10: a submission whose input is empty or whitespace-only leaves the
session state entirely unchanged — no turn is appended, the ExportBuffer is
untouched and the executor result is never consulted. -/
theorem blank_input_no_effect (runf : String → Except String PyVal)
    (s : SessionState) (input : String) (h : pyStrip input = "") :
    submitStep runf s input = s := by
  unfold submitStep
  rw [if_pos h]

/-- Witness for C10 at the whitespace-only input. -/
theorem blank_input_no_effect_witness :
    submitStep (fun _ => Except.error "unused") initialState "  " = initialState :=
  blank_input_no_effect (fun _ => Except.error "unused") initialState "  " (by decide)

/-- A non-blank submission always extends the history by at least one
turn: the session keeps accepting and recording submissions. -/
theorem submit_extends_history (runf : String → Except String PyVal)
    (s : SessionState) (input : String) (h : pyStrip input ≠ "") :
    ∃ t : List String, t ≠ [] ∧ (submitStep runf s input).history = s.history ++ t := by
  unfold submitStep
  rw [if_neg h]
  cases hr : runf input with
  | ok response =>
    dsimp only
    by_cases ht : (isListTupleDict response && truthy response) = true
    · rw [if_pos ht]
      exact ⟨["**You:** " ++ input, "**Bot:** (See table below)"], by simp, by simp⟩
    · rw [if_neg ht]
      exact ⟨["**You:** " ++ input,
        "**Bot:** " ++ (if truthy response then pyStr response else "No data found")],
        by simp, by simp⟩
  | error e =>
    dsimp only
    exact ⟨["**Bot:** ❌ Error: " ++ e], by simp, rfl⟩

/-- C7: when the executor raises, the submission appends exactly one Bot
turn ending the history and carrying the error text as suffix, appends
exactly one diagnostic block to the error log, leaves the export buffer
unchanged, and the session remains ready: any later non-blank submission
still extends the history. -/
theorem executor_error_recovery (runf : String → Except String PyVal)
    (s : SessionState) (input e : String)
    (hne : pyStrip input ≠ "") (herr : runf input = Except.error e) :
    submitStep runf s input =
      { history := s.history ++ ["**Bot:** ❌ Error: " ++ e]
        export_data := s.export_data
        error_log := s.error_log ++ ["\n" ++ formatExc e ++ "\n"] }
    ∧ (submitStep runf s input).history.getLast? = some ("**Bot:** ❌ Error: " ++ e)
    ∧ (submitStep runf s input).error_log.length = s.error_log.length + 1
    ∧ ∀ (runf2 : String → Except String PyVal) (input2 : String),
        pyStrip input2 ≠ "" →
        ∃ t : List String, t ≠ []
          ∧ (submitStep runf2 (submitStep runf s input) input2).history
              = (submitStep runf s input).history ++ t := by
  have hstep : submitStep runf s input =
      { history := s.history ++ ["**Bot:** ❌ Error: " ++ e]
        export_data := s.export_data
        error_log := s.error_log ++ ["\n" ++ formatExc e ++ "\n"] } := by
    unfold submitStep
    rw [if_neg hne, herr]
  refine ⟨hstep, ?_, ?_, ?_⟩
  · rw [hstep]
    simp
  · rw [hstep]
    simp
  · intro runf2 input2 h2
    exact submit_extends_history runf2 (submitStep runf s input) input2 h2

/-- Witness for C7 with an executor that raises "boom". -/
theorem executor_error_recovery_witness :
    submitStep (fun _ => Except.error "boom") initialState "hi" =
      { history := ["**Bot:** ❌ Error: boom"]
        export_data := none
        error_log := ["\n" ++ formatExc "boom" ++ "\n"] } := by
  have h := executor_error_recovery (fun _ => Except.error "boom")
    initialState "hi" "boom" (by decide) rfl
  exact h.1

/-- C2 counterexample: with a raising executor, the submission leaves NO
User turn in the history — only the Bot error turn — because the source
calls `db_chain.run` BEFORE appending the user's message, and the exception
skips the append. -/
theorem run_raises_no_user_turn_counterexample :
    (submitStep (fun _ => Except.error "boom") initialState "hi").history =
        ["**Bot:** ❌ Error: boom"]
    ∧ "**You:** hi" ∉
        (submitStep (fun _ => Except.error "boom") initialState "hi").history := by
  exact ⟨rfl, by decide⟩

/-- C2 amended: on a non-blank submission, `Executor.run` is invoked FIRST;
on success the history then gains the User turn followed by a Bot turn, but
when `run` raises the history gains only the Bot error turn and no User
turn is appended. -/
theorem submit_turn_order (runf : String → Except String PyVal)
    (s : SessionState) (input : String) (h : pyStrip input ≠ "") :
    (∀ response, runf input = Except.ok response →
      (submitStep runf s input).history =
        s.history ++ ["**You:** " ++ input, botTurn response])
    ∧ (∀ e, runf input = Except.error e →
      (submitStep runf s input).history =
        s.history ++ ["**Bot:** ❌ Error: " ++ e]) := by
  constructor
  · intro response hok
    unfold submitStep
    rw [if_neg h, hok]
    unfold botTurn
    dsimp only
    by_cases ht : (isListTupleDict response && truthy response) = true
    · rw [if_pos ht, if_pos ht]
      simp
    · rw [if_neg ht, if_neg ht]
      simp
  · intro e herr
    unfold submitStep
    rw [if_neg h, herr]

/-- Witness for C2 amended: a successful scalar run appends the User turn
then the Bot turn. -/
theorem submit_turn_order_witness :
    (submitStep (fun _ => Except.ok (PyVal.pystr "hello")) initialState "hi").history =
      ["**You:** hi", "**Bot:** hello"] := by
  have h := submit_turn_order (fun _ => Except.ok (PyVal.pystr "hello"))
    initialState "hi" (by decide)
  exact (h.1 (PyVal.pystr "hello") rfl).trans (by decide)

/-- An executor returning the one-row table `[{"count": 42}]`. -/
def runTable : String → Except String PyVal :=
  fun _ => Except.ok (PyVal.pylist [PyVal.pydict [("count", PyVal.pyint 42)]])

/-- An executor returning the plain string `"hello"`. -/
def runScalar : String → Except String PyVal :=
  fun _ => Except.ok (PyVal.pystr "hello")

/-- C4 counterexample: after a tabular turn followed by a scalar turn, the
ExportBuffer still holds the FIRST turn's table although the most recent
turn displayed no table — the buffer does retain a table from an earlier
turn. -/
theorem export_retained_counterexample :
    (submitStep runScalar (submitStep runTable initialState "q1") "q2").export_data =
        (submitStep runTable initialState "q1").export_data
    ∧ (submitStep runTable initialState "q1").export_data =
        some (dfOfDicts [PyVal.pydict [("count", PyVal.pyint 42)]])
    ∧ isListTupleDict (PyVal.pystr "hello") = false :=
  ⟨rfl, rfl, rfl⟩

/-- C4 amended: the ExportBuffer is overwritten with the turn's displayed
table exactly on submissions whose result is a truthy list/tuple/dict; on
scalar or empty results and on raising runs it retains its previous value
unchanged. -/
theorem export_overwrite_policy (runf : String → Except String PyVal)
    (s : SessionState) (input : String) (h : pyStrip input ≠ "") :
    (∀ response, runf input = Except.ok response →
      (isListTupleDict response && truthy response) = true →
        (submitStep runf s input).export_data = format_and_display_response response)
    ∧ (∀ response, runf input = Except.ok response →
      (isListTupleDict response && truthy response) = false →
        (submitStep runf s input).export_data = s.export_data)
    ∧ (∀ e, runf input = Except.error e →
        (submitStep runf s input).export_data = s.export_data) := by
  refine ⟨?_, ?_, ?_⟩
  · intro response hok ht
    unfold submitStep
    rw [if_neg h, hok]
    dsimp only
    rw [if_pos ht]
    have htr : truthy response = true := by
      have h2 := ht
      simp only [Bool.and_eq_true] at h2
      exact h2.2
    unfold format_and_display_response
    rw [if_pos htr]
  · intro response hok ht
    unfold submitStep
    rw [if_neg h, hok]
    dsimp only
    rw [if_neg (Bool.eq_false_iff.mp ht)]
  · intro e herr
    unfold submitStep
    rw [if_neg h, herr]

/-- Witness for C4 amended: a tabular run overwrites the buffer with that
turn's table. -/
theorem export_overwrite_policy_witness :
    (submitStep runTable initialState "q").export_data =
      format_and_display_response
        (PyVal.pylist [PyVal.pydict [("count", PyVal.pyint 42)]]) := by
  have h := export_overwrite_policy runTable initialState "q" (by decide)
  exact h.1 (PyVal.pylist [PyVal.pydict [("count", PyVal.pyint 42)]]) rfl rfl

end ClickhouseChatbot
